import Mathlib

/-!
Verification of the display recomputation core of nionswift
(src/nion/swift/model/Display.py), shallowly embedded in Lean.

Modelling conventions:

* Floating point display values are modelled by the type RVal, which
  distinguishes finite values (carried as integers, since only order,
  min/max and NaN/Inf classification matter to the verified code) from
  nan, +inf and -inf.  numpy amin/amax propagate NaN, which rmin/rmax
  model.
* Python int(x) truncates toward zero; int_trunc_half x models
  int(x * 0.5) for an integer x (the products arising in the code are
  exact in binary floating point, so truncation of the real value is
  the exact semantics).
* Absent values (Python None) are Option.none; a Python expression that
  raises (subscripting None, IndexError) is modelled with Except Unit.
* The external numeric library (nion.data Core/Image, numpy) is not part
  of this repository; its operations are abstract parameters (Externals)
  and numpy.random.choice is an explicit oracle parameter, so that
  theorems quantify over every possible behaviour of those collaborators.
* The thread scheduler of Display is modelled as a state machine over
  SchedulerState; each Python method that manipulates the thread slot,
  the pending flag and the thread-ok flag becomes a function on states,
  returning the number of worker threads it spawned.  Thread joins are
  modelled by running the joined worker's epilogue before the joining
  call returns.
-/

/-- A display value: a finite float (modelled by an integer), NaN, or an
infinity.  Only order and NaN/Inf classification of floats are relevant
to the embedded code. -/
inductive RVal where
  | fin (x : Int)
  | nan
  | inf
  | ninf
deriving DecidableEq, Repr

/-- math.isnan -/
def RVal.isnan : RVal → Bool
  | .nan => true
  | _ => false

/-- math.isinf -/
def RVal.isinf : RVal → Bool
  | .inf => true
  | .ninf => true
  | _ => false

/-- Binary minimum with numpy semantics: NaN propagates, -inf dominates. -/
def rmin : RVal → RVal → RVal
  | .nan, _ => .nan
  | _, .nan => .nan
  | .ninf, _ => .ninf
  | _, .ninf => .ninf
  | .inf, b => b
  | a, .inf => a
  | .fin a, .fin b => .fin (min a b)

/-- Binary maximum with numpy semantics: NaN propagates, +inf dominates. -/
def rmax : RVal → RVal → RVal
  | .nan, _ => .nan
  | _, .nan => .nan
  | .inf, _ => .inf
  | _, .inf => .inf
  | .ninf, b => b
  | a, .ninf => a
  | .fin a, .fin b => .fin (max a b)

/-- numpy.amin over the flattened data.  The embedded code only calls it
on non-empty data (it is guarded by display_data.size); the empty case is
arbitrary. -/
def amin : List RVal → RVal
  | [] => .nan
  | x :: xs => xs.foldl rmin x

/-- numpy.amax over the flattened data (non-empty in all guarded calls). -/
def amax : List RVal → RVal
  | [] => .nan
  | x :: xs => xs.foldl rmax x

/-- Python int(x * 0.5) for an integer x: the real value x/2 truncated
toward zero (the product is exact in floating point). -/
def int_trunc_half (x : Int) : Int :=
  if 0 ≤ x then x / 2 else -((-x) / 2)

/-- Python sequence subscript s[i]: some value, or none for an IndexError. -/
def pyIndex {α : Type} (l : List α) (i : Nat) : Option α :=
  if h : i < l.length then some (l.get ⟨i, h⟩) else none

/-- The complex display type enum ("log-abs" is the implicit default when
it is absent). -/
inductive Cdt where
  | log_absolute
  | real_part
  | imaginary
  | absolute
  | phase
deriving DecidableEq, Repr

/-- Classification of the source dtype as used through
Image.is_shape_and_dtype_rgb_type / is_shape_and_dtype_complex_type. -/
inductive DKind where
  | real_type
  | cplx
  | rgb
deriving DecidableEq, Repr

/-- The source dataset (DataAndMetadata) as seen by Display: shape,
dtype classification, sequence/collection structure and timestamp.  The
Python checks "data_and_metadata and data_and_metadata.dimensional_shape
is not None" collapse to matching on some. -/
structure Src where
  shape : List Int
  kind : DKind
  is_sequence : Bool
  collection_dimension_count : Nat
  max_sequence_index : Int
  timestamp : Nat
deriving DecidableEq, Repr

/-- The reduced display data (result of Core.function_display_data):
its flattened values and its timestamp. -/
structure DData where
  data : List RVal
  timestamp : Nat
deriving DecidableEq, Repr

/-- An RGBA image, abstract (only produced and compared). -/
abbrev Rgba : Type := List Nat

/-- A color map table, abstract. -/
abbrev Cmap : Type := List Nat

/-- Display.py line 135: module-level calculate_display_range.
Returns Except.error () where the Python code would raise (subscripting
a None data_range, or indexing an empty data_sample).  The sample index
int(len * 0.05) equals len * 5 / 100 exactly (the float product never
crosses an integer boundary for representable lengths). -/
def calculate_display_range (display_limits : Option (Option RVal × Option RVal))
    (data_range : Option (RVal × RVal)) (data_sample : Option (List RVal))
    (xdata : Option Src) (complex_display_type : Option Cdt) :
    Except Unit (Option (RVal × RVal)) :=
  match display_limits with
  | some dl =>
    match dl.1, dl.2, data_range with
    | some l, some h, _ => .ok (some (l, h))
    | some l, none, some dr => .ok (some (l, dr.2))
    | none, some h, some dr => .ok (some (dr.1, h))
    | none, none, some dr => .ok (some (dr.1, dr.2))
    | _, _, none => .error ()
  | none =>
    match xdata with
    | some x =>
      if x.kind = DKind.cplx ∧ complex_display_type = none then
        match data_sample with
        | some ds =>
          match pyIndex ds (ds.length * 5 / 100), data_range with
          | some lo, some dr => .ok (some (lo, dr.2))
          | _, _ => .error ()
        | none => .ok data_range
      else .ok data_range
    | none => .ok data_range

/-- The DisplayValues namedtuple (Display.py line 149). -/
structure DisplayValues where
  display_data_and_metadata : Option DData
  data_range : Option (RVal × RVal)
  data_sample : Option (List RVal)
  display_range : Option (RVal × RVal)
  display_rgba : Option Rgba
  display_rgba_timestamp : Option Nat
deriving DecidableEq

/-- The mutable state of the CalculatedDisplayValues class: cached
artifacts, the three dirty flags, and the inputs. -/
structure CalculatedDisplayValues where
  display_data_and_metadata : Option DData := none
  data_range : Option (RVal × RVal) := none
  data_sample : Option (List RVal) := none
  display_range : Option (RVal × RVal) := none
  display_rgba : Option Rgba := none
  display_rgba_timestamp : Option Nat := none
  display_data_dirty : Bool := false
  display_range_dirty : Bool := false
  display_rgba_dirty : Bool := false
  data_and_metadata : Option Src := none
  sequence_index : Int := 0
  collection_index : Int × Int × Int := (0, 0, 0)
  slice_center : Int := 0
  slice_width : Int := 1
  complex_display_type : Option Cdt := none
  display_limits : Option (Option RVal × Option RVal) := none
  color_map_data : Option Cmap := none
deriving DecidableEq

/-- CalculatedDisplayValues.values (line 197). -/
def CalculatedDisplayValues.values (c : CalculatedDisplayValues) : DisplayValues :=
  ⟨c.display_data_and_metadata, c.data_range, c.data_sample, c.display_range,
   c.display_rgba, c.display_rgba_timestamp⟩

/-- CalculatedDisplayValues._set_data_and_metadata (line 209). -/
def CalculatedDisplayValues._set_data_and_metadata (c : CalculatedDisplayValues)
    (v : Option Src) : CalculatedDisplayValues :=
  { c with data_and_metadata := v, display_data_dirty := true,
           display_range_dirty := true, display_rgba_dirty := true }

/-- CalculatedDisplayValues._set_sequence_index (line 216). -/
def CalculatedDisplayValues._set_sequence_index (c : CalculatedDisplayValues)
    (v : Int) : CalculatedDisplayValues :=
  { c with sequence_index := v, display_data_dirty := true,
           display_range_dirty := true, display_rgba_dirty := true }

/-- CalculatedDisplayValues._set_collection_index (line 223). -/
def CalculatedDisplayValues._set_collection_index (c : CalculatedDisplayValues)
    (v : Int × Int × Int) : CalculatedDisplayValues :=
  { c with collection_index := v, display_data_dirty := true,
           display_range_dirty := true, display_rgba_dirty := true }

/-- CalculatedDisplayValues._set_slice_center (line 230). -/
def CalculatedDisplayValues._set_slice_center (c : CalculatedDisplayValues)
    (v : Int) : CalculatedDisplayValues :=
  { c with slice_center := v, display_data_dirty := true,
           display_range_dirty := true, display_rgba_dirty := true }

/-- CalculatedDisplayValues._set_slice_width (line 237). -/
def CalculatedDisplayValues._set_slice_width (c : CalculatedDisplayValues)
    (v : Int) : CalculatedDisplayValues :=
  { c with slice_width := v, display_data_dirty := true,
           display_range_dirty := true, display_rgba_dirty := true }

/-- CalculatedDisplayValues._set_complex_display_type (line 244). -/
def CalculatedDisplayValues._set_complex_display_type (c : CalculatedDisplayValues)
    (v : Option Cdt) : CalculatedDisplayValues :=
  { c with complex_display_type := v, display_data_dirty := true,
           display_range_dirty := true, display_rgba_dirty := true }

/-- CalculatedDisplayValues._set_display_limits (line 251): marks only
the display-range and display-rgba stages dirty. -/
def CalculatedDisplayValues._set_display_limits (c : CalculatedDisplayValues)
    (v : Option (Option RVal × Option RVal)) : CalculatedDisplayValues :=
  { c with display_limits := v, display_range_dirty := true,
           display_rgba_dirty := true }

/-- CalculatedDisplayValues._set_color_map_data (line 257): marks only
the display-rgba stage dirty. -/
def CalculatedDisplayValues._set_color_map_data (c : CalculatedDisplayValues)
    (v : Option Cmap) : CalculatedDisplayValues :=
  { c with color_map_data := v, display_rgba_dirty := true }

/-- CalculatedDisplayValues.update_values (line 335): copy the six value
fields from a DisplayValues snapshot; the dirty flags are untouched. -/
def CalculatedDisplayValues.update_values (c : CalculatedDisplayValues)
    (v : DisplayValues) : CalculatedDisplayValues :=
  { c with display_data_and_metadata := v.display_data_and_metadata,
           data_range := v.data_range, data_sample := v.data_sample,
           display_range := v.display_range, display_rgba := v.display_rgba,
           display_rgba_timestamp := v.display_rgba_timestamp }

/-- The flag clearing performed on self inside copy_and_calculate
(lines 190-192). -/
def CalculatedDisplayValues.clear_dirty (c : CalculatedDisplayValues) :
    CalculatedDisplayValues :=
  { c with display_data_dirty := false, display_range_dirty := false,
           display_rgba_dirty := false }

/-- The operations this core consumes from the external numeric library
(nion.data Core); they are deterministic pure functions of their
arguments and are otherwise unconstrained. -/
structure Externals where
  function_display_data : Src → Int → (Int × Int × Int) → Int → Int →
    Option Cdt → Option DData
  function_display_rgba : DData → Option (RVal × RVal) → Option Cmap → Rgba

/-- CalculatedDisplayValues.__calculate_display_data_and_metadata
(line 274): reduce the source through Core.function_display_data and
restamp the source timestamp. -/
def CalculatedDisplayValues.calculate_display_data_and_metadata
    (ext : Externals) (c : CalculatedDisplayValues) : Option DData :=
  match c.data_and_metadata with
  | some dm =>
    match ext.function_display_data dm c.sequence_index c.collection_index
        c.slice_center c.slice_width c.complex_display_type with
    | some dd => some { dd with timestamp := dm.timestamp }
    | none => none
  | none => none

/-- The NaN/Inf collapse at the end of __calculate_data_range
(lines 298-300): a range with a NaN or Inf bound becomes (0.0, 0.0). -/
def nan_inf_collapse (dr : RVal × RVal) : RVal × RVal :=
  if dr.1.isnan || dr.2.isnan || dr.1.isinf || dr.2.isinf then (.fin 0, .fin 0)
  else dr

/-- CalculatedDisplayValues.__calculate_data_range (line 284): the
display data (via ddm) must be present and non-empty and the source
present; the raw range is (0, 255) for an RGB-typed source and
amin/amax of the display data otherwise, then the NaN/Inf collapse is
applied. -/
def CalculatedDisplayValues.calculate_data_range (ddm : Option DData)
    (dm : Option Src) : Option (RVal × RVal) :=
  let data_range : Option (RVal × RVal) :=
    match ddm, dm with
    | some d, some s =>
      if d.data.length ≠ 0 then
        if s.kind = DKind.rgb then some (.fin 0, .fin 255)
        else if s.kind = DKind.cplx then some (amin d.data, amax d.data)
        else some (amin d.data, amax d.data)
      else none
    | _, _ => none
  match data_range with
  | some dr => some (nan_inf_collapse dr)
  | none => none

/-- An insertion step for the sort used on the data sample. -/
def insertSorted (le : RVal → RVal → Bool) (x : RVal) : List RVal → List RVal
  | [] => [x]
  | y :: ys => if le x y then x :: y :: ys else y :: insertSorted le x ys

/-- Total comparison used to model numpy.sort on real values (NaN last). -/
def rleB : RVal → RVal → Bool
  | .ninf, _ => true
  | _, .ninf => false
  | _, .nan => true
  | .nan, _ => false
  | .fin a, .fin b => a ≤ b
  | .fin _, .inf => true
  | .inf, .inf => true
  | .inf, .fin _ => false

/-- numpy.sort on a flattened sample. -/
def sortRVals (l : List RVal) : List RVal := l.foldr (insertSorted rleB) []

/-- CalculatedDisplayValues.__calculate_data_sample (line 303).
numpy.random.choice(display_data, 200) is the randomness oracle rand;
the result is sorted. -/
def CalculatedDisplayValues.calculate_data_sample (rand : List RVal → List RVal)
    (ddm : Option DData) (dm : Option Src) : Option (List RVal) :=
  let display_data := match ddm with
    | some d => some d.data
    | none => none
  match display_data, dm with
  | some dd, some s =>
    if dd.length ≠ 0 then
      if s.kind = DKind.rgb then none
      else if s.kind = DKind.cplx then some (sortRVals (rand dd))
      else none
    else none
  | _, _ => none

/-- CalculatedDisplayValues.__calculate_display_rgba (line 324).  Any
exception from calculate_display_range propagates. -/
def CalculatedDisplayValues.calculate_display_rgba (ext : Externals)
    (c : CalculatedDisplayValues) : Except Unit (Option Rgba × Option Nat) :=
  match c.display_data_and_metadata, c.data_and_metadata with
  | some ddm, some _ =>
    match c.data_range with
    | some _ =>
      match calculate_display_range c.display_limits c.data_range c.data_sample
          c.data_and_metadata c.complex_display_type with
      | .ok drange =>
        .ok (some (ext.function_display_rgba ddm drange c.color_map_data),
             some ddm.timestamp)
      | .error e => .error e
    | none => .ok (none, none)
  | _, _ => .ok (none, none)

/-- CalculatedDisplayValues.__calculate (line 262), without the parent
update (performed by copy_and_calculate below): run exactly the stages
whose dirty flag is set, in dependency order.  An exception raised by a
stage is Except.error. -/
def CalculatedDisplayValues.calculate (ext : Externals)
    (rand : List RVal → List RVal) (c0 : CalculatedDisplayValues) :
    Except Unit CalculatedDisplayValues :=
  let c1 := if c0.display_data_dirty then
      let dd := CalculatedDisplayValues.calculate_display_data_and_metadata ext c0
      { c0 with display_data_and_metadata := dd,
                data_range := CalculatedDisplayValues.calculate_data_range dd c0.data_and_metadata,
                data_sample := CalculatedDisplayValues.calculate_data_sample rand dd c0.data_and_metadata }
    else c0
  let r2 : Except Unit CalculatedDisplayValues :=
    if c1.display_range_dirty then
      match calculate_display_range c1.display_limits c1.data_range c1.data_sample
          c1.data_and_metadata c1.complex_display_type with
      | .ok dr => .ok { c1 with display_range := dr }
      | .error e => .error e
    else .ok c1
  match r2 with
  | .error e => .error e
  | .ok c2 =>
    if c2.display_rgba_dirty then
      match CalculatedDisplayValues.calculate_display_rgba ext c2 with
      | .ok p => .ok { c2 with display_rgba := p.1, display_rgba_timestamp := p.2 }
      | .error e => .error e
    else .ok c2

/-- CalculatedDisplayValues.copy_and_calculate (line 187): copy self
(keeping the current dirty flags in the copy), clear self's dirty flags,
let the copy calculate, and push the copy's values back into self
(the parent).  Returns the new state of self together with the values
the caller will broadcast; on an exception, self keeps its old values
(its flags were already cleared). -/
def CalculatedDisplayValues.copy_and_calculate (ext : Externals)
    (rand : List RVal → List RVal) (c : CalculatedDisplayValues) :
    CalculatedDisplayValues × Except Unit DisplayValues :=
  let parent := CalculatedDisplayValues.clear_dirty c
  match CalculatedDisplayValues.calculate ext rand c with
  | .ok c2 =>
    (CalculatedDisplayValues.update_values parent (CalculatedDisplayValues.values c2),
     .ok (CalculatedDisplayValues.values c2))
  | .error e => (parent, .error e)

/-- Display.__validate_display_limits (line 551).  The limits are plain
finite floats, modelled by integers (only order matters). -/
def Display.validate_display_limits (value : Option (List (Option Int))) :
    Option (Option Int × Option Int) :=
  match value with
  | none => none
  | some v =>
    match v with
    | [] => none
    | [v0] =>
      match v0 with
      | some x => some (some x, none)
      | none => none
    | v0 :: v1 :: _ =>
      match v0, v1 with
      | some a, some b => some (some (min a b), some (max a b))
      | none, none => none
      | _, _ => some (v0, v1)

/-- Display.__validate_sequence_index (line 565). -/
def Display.validate_sequence_index (is_reading : Bool) (dm : Option Src)
    (value : Int) : Int :=
  if !is_reading then
    match dm with
    | some s =>
      if s.is_sequence then max (min value (s.max_sequence_index - 1)) 0 else 0
    | none => 0
  else 0

/-- Display.__validate_collection_index (line 571).  Shapes are
well-formed, so the list subscripts use a default of 0 out of range. -/
def Display.validate_collection_index (is_reading : Bool) (dm : Option Src)
    (value : Int × Int × Int) : Int × Int × Int :=
  if !is_reading then
    match dm with
    | some s =>
      let collection_base_index : Nat := if s.is_sequence then 1 else 0
      let cdc := s.collection_dimension_count
      let i0 := if cdc > 0 then
          max (min value.1 (s.shape.getD (collection_base_index + 0) 0 - 1)) 0
        else 0
      let i1 := if cdc > 1 then
          max (min value.2.1 (s.shape.getD (collection_base_index + 1) 0 - 1)) 0
        else 0
      let i2 := if cdc > 2 then
          max (min value.2.2 (s.shape.getD (collection_base_index + 2) 0 - 1)) 0
        else 0
      (i0, i1, i2)
    | none => (0, 0, 0)
  else (0, 0, 0)

/-- Display.__validate_slice_center_for_width (line 583).
dimensional_shape[-1] is the trailing dimension; int(slice_width * 0.5)
and int(depth - slice_width * 0.5) truncate the exact half-integer
toward zero. -/
def Display.validate_slice_center_for_width (dm : Option Src)
    (is_reading : Bool) (value slice_width : Int) : Int :=
  match dm with
  | some s =>
    let depth := (s.shape.getLast?).getD 0
    let mn := max (int_trunc_half slice_width) 0
    let mx := min (int_trunc_half (2 * depth - slice_width)) (depth - 1)
    min (max value mn) mx
  | none => if is_reading then value else 0

/-- Display.__validate_slice_width (line 594). -/
def Display.validate_slice_width (dm : Option Src) (is_reading : Bool)
    (slice_center value : Int) : Int :=
  match dm with
  | some s =>
    let depth := (s.shape.getLast?).getD 0
    let mn : Int := 1
    let mx := max (min slice_center (depth - slice_center) * 2) 1
    min (max value mn) mx
  | none => if is_reading then value else 1

/-- The slice_center part of Display.validate_slice_indexes (line 603):
re-validate slice_center against width 1; when it changed, slice_width is
temporarily forced to 1 and slice_center is re-assigned through its
validator (with width 1), then the width is restored. -/
def Display.validate_slice_indexes_center (dm : Option Src)
    (slice_center : Int) : Int :=
  let sc2 := Display.validate_slice_center_for_width dm false slice_center 1
  if sc2 ≠ slice_center then
    Display.validate_slice_center_for_width dm false slice_center 1
  else slice_center

/-- The slice_center effect of Display.update_data (line 747): when the
data shape changed, validate_slice_indexes re-clamps slice_center. -/
def Display.update_data_slice_center (old_dm new_dm : Option Src)
    (slice_center : Int) : Int :=
  if old_dm.map Src.shape ≠ new_dm.map Src.shape then
    Display.validate_slice_indexes_center new_dm slice_center
  else slice_center

/-- The scheduler fields of Display, over an abstract input-state type:
the thread slot (true when a worker thread object is stored), the values
pending flag, the thread-ok (scheduler enabled) flag, the listener count
of calculated_display_values_available_event, the current input state,
and the input snapshot the active worker computes against. -/
structure Display.SchedulerState (α : Type) where
  calculated_display_values_thread : Bool
  calculated_display_values_pending : Bool
  calculated_display_values_thread_ok : Bool
  listener_count : Nat
  input : α
  worker_input : Option α
deriving DecidableEq

/-- Display.__send_next_calculated_display_values (line 808): with a
worker active only the pending flag is set; otherwise the pending flag is
cleared and, when listeners exist, one worker is spawned against the
current input.  Returns the number of workers spawned. -/
def Display.send_next_calculated_display_values {α : Type}
    (s : Display.SchedulerState α) : Display.SchedulerState α × Nat :=
  if s.calculated_display_values_thread then
    ({ s with calculated_display_values_pending := true }, 0)
  else
    let s1 := { s with calculated_display_values_pending := false }
    if 0 < s1.listener_count then
      ({ s1 with calculated_display_values_thread := true,
                 worker_input := some s1.input }, 1)
    else (s1, 0)

/-- The scheduler effect of one parameter setter (Display.
__property_changed, line 732, and update_data, line 747): store the new
input, then request the next calculated display values. -/
def Display.update_parameter {α : Type} (v : α)
    (s : Display.SchedulerState α) : Display.SchedulerState α × Nat :=
  Display.send_next_calculated_display_values { s with input := v }

/-- A sequence of parameter updates, accumulating the spawn count. -/
def Display.apply_updates {α : Type} :
    List α → Display.SchedulerState α → Display.SchedulerState α × Nat
  | [], s => (s, 0)
  | v :: rest, s =>
    let p := Display.update_parameter v s
    let q := Display.apply_updates rest p.1
    (q.1, p.2 + q.2)

/-- The epilogue of Display.__calculate_display_values (lines 797-806):
consume the pending flag; when it was set and the scheduler is still
enabled, spawn exactly one new worker against the current input,
otherwise clear the thread slot.  Returns the number of workers
spawned. -/
def Display.finish_worker {α : Type} (s : Display.SchedulerState α) :
    Display.SchedulerState α × Nat :=
  let was_pending := s.calculated_display_values_pending
  let s1 := { s with calculated_display_values_pending := false }
  if was_pending && s1.calculated_display_values_thread_ok then
    ({ s1 with calculated_display_values_thread := true,
               worker_input := some s1.input }, 1)
  else
    ({ s1 with calculated_display_values_thread := false,
               worker_input := none }, 0)

/-- Display.__calculate_display_values (line 768), one worker execution
over the scheduler state whose input is the CalculatedDisplayValues
instance: the try block either raises the test exception immediately, or
runs copy_and_calculate (whose own exception is also caught) and fires
the available event on success.  Returns the new state, the number of
listener notifications fired, and the number of workers spawned by the
epilogue. -/
def Display.calculate_display_values_thread_body (ext : Externals)
    (rand : List RVal → List RVal) (test_exception : Bool)
    (s : Display.SchedulerState CalculatedDisplayValues) :
    Display.SchedulerState CalculatedDisplayValues × Nat × Nat :=
  let step : CalculatedDisplayValues × Nat :=
    if test_exception then (s.input, 0)
    else
      match CalculatedDisplayValues.copy_and_calculate ext rand s.input with
      | (parent, Except.ok _) => (parent, 1)
      | (parent, Except.error _) => (parent, 0)
  let fw := Display.finish_worker { s with input := step.1 }
  (fw.1, step.2, fw.2)

/-- The scheduler part of Display.close (lines 412-418): clear the
thread-ok flag, then join any active worker; the join is modelled by
running the joined worker's epilogue (which, with thread-ok cleared,
cannot relaunch) before close returns. -/
def Display.close_scheduler {α : Type} (s : Display.SchedulerState α) :
    Display.SchedulerState α :=
  let s1 := { s with calculated_display_values_thread_ok := false }
  if s1.calculated_display_values_thread then (Display.finish_worker s1).1
  else s1

/-- Display.update_calculated_display_values (line 829), in the no-thread
case: calculate immediately, store, and fire; followed by
get_calculated_display_values (line 847) returning the stored values. -/
def Display.get_calculated_display_values (ext : Externals)
    (rand : List RVal → List RVal) (c : CalculatedDisplayValues) :
    (CalculatedDisplayValues × Except Unit DisplayValues) × DisplayValues :=
  let r := CalculatedDisplayValues.copy_and_calculate ext rand c
  (r, CalculatedDisplayValues.values r.1)

/-! ## Helper lemmas -/

theorem values_clear_dirty (c : CalculatedDisplayValues) :
    (CalculatedDisplayValues.clear_dirty c).values = c.values := rfl

theorem values_update_values (p : CalculatedDisplayValues) (v : DisplayValues) :
    (p.update_values v).values = v := by
  cases v
  rfl

theorem update_values_self (c : CalculatedDisplayValues) :
    c.update_values c.values = c := rfl

theorem clear_dirty_of_clean (c : CalculatedDisplayValues)
    (h1 : c.display_data_dirty = false) (h2 : c.display_range_dirty = false)
    (h3 : c.display_rgba_dirty = false) :
    CalculatedDisplayValues.clear_dirty c = c := by
  cases c
  simp_all [CalculatedDisplayValues.clear_dirty]

theorem calculate_clean (ext : Externals) (rand : List RVal → List RVal)
    (c : CalculatedDisplayValues)
    (h1 : c.display_data_dirty = false) (h2 : c.display_range_dirty = false)
    (h3 : c.display_rgba_dirty = false) :
    CalculatedDisplayValues.calculate ext rand c = .ok c := by
  simp [CalculatedDisplayValues.calculate, h1, h2, h3]

theorem copy_and_calculate_error_values (ext : Externals)
    (rand : List RVal → List RVal) (c : CalculatedDisplayValues) (e : Unit)
    (h : (CalculatedDisplayValues.copy_and_calculate ext rand c).2 = .error e) :
    (CalculatedDisplayValues.copy_and_calculate ext rand c).1.values = c.values := by
  unfold CalculatedDisplayValues.copy_and_calculate at *
  cases hcalc : CalculatedDisplayValues.calculate ext rand c with
  | ok c2 => rw [hcalc] at h; simp at h
  | error e2 => rfl

theorem send_next_active {α : Type} (s : Display.SchedulerState α)
    (h : s.calculated_display_values_thread = true) :
    Display.send_next_calculated_display_values s =
      ({ s with calculated_display_values_pending := true }, 0) := by
  simp [Display.send_next_calculated_display_values, h]

theorem update_parameter_active {α : Type} (v : α) (s : Display.SchedulerState α)
    (h : s.calculated_display_values_thread = true) :
    Display.update_parameter v s =
      ({ s with input := v, calculated_display_values_pending := true }, 0) := by
  simp [Display.update_parameter, Display.send_next_calculated_display_values, h]

theorem apply_updates_active {α : Type} (vs : List α)
    (s : Display.SchedulerState α)
    (h : s.calculated_display_values_thread = true) (hne : vs ≠ []) :
    Display.apply_updates vs s =
      ({ s with input := vs.getLast hne,
                calculated_display_values_pending := true }, 0) := by
  induction vs generalizing s with
  | nil => exact absurd rfl hne
  | cons v rest ih =>
    cases rest with
    | nil =>
      simp [Display.apply_updates, update_parameter_active v s h, List.getLast]
    | cons v2 rest2 =>
      rw [Display.apply_updates, update_parameter_active v s h,
          ih { s with input := v, calculated_display_values_pending := true } h
            (by simp)]
      simp [List.getLast]

/-! ## Claim theorems -/

/-- C6: every input setter marks dirty exactly its affected stage and all
downstream stages: _set_display_limits marks only the display-range and
display-rgba dirty bits and leaves the display-data dirty bit unchanged;
_set_color_map_data marks only the display-rgba dirty bit; and each of
_set_data_and_metadata, _set_sequence_index, _set_collection_index,
_set_slice_center, _set_slice_width and _set_complex_display_type marks
display-data, display-range and display-rgba all dirty. -/
theorem C6_setter_dirty_marking :
    (∀ (c : CalculatedDisplayValues) (v : Option (Option RVal × Option RVal)),
      (c._set_display_limits v).display_data_dirty = c.display_data_dirty ∧
      (c._set_display_limits v).display_range_dirty = true ∧
      (c._set_display_limits v).display_rgba_dirty = true) ∧
    (∀ (c : CalculatedDisplayValues) (v : Option Cmap),
      (c._set_color_map_data v).display_data_dirty = c.display_data_dirty ∧
      (c._set_color_map_data v).display_range_dirty = c.display_range_dirty ∧
      (c._set_color_map_data v).display_rgba_dirty = true) ∧
    (∀ (c : CalculatedDisplayValues) (v : Option Src),
      (c._set_data_and_metadata v).display_data_dirty = true ∧
      (c._set_data_and_metadata v).display_range_dirty = true ∧
      (c._set_data_and_metadata v).display_rgba_dirty = true) ∧
    (∀ (c : CalculatedDisplayValues) (v : Int),
      (c._set_sequence_index v).display_data_dirty = true ∧
      (c._set_sequence_index v).display_range_dirty = true ∧
      (c._set_sequence_index v).display_rgba_dirty = true) ∧
    (∀ (c : CalculatedDisplayValues) (v : Int × Int × Int),
      (c._set_collection_index v).display_data_dirty = true ∧
      (c._set_collection_index v).display_range_dirty = true ∧
      (c._set_collection_index v).display_rgba_dirty = true) ∧
    (∀ (c : CalculatedDisplayValues) (v : Int),
      (c._set_slice_center v).display_data_dirty = true ∧
      (c._set_slice_center v).display_range_dirty = true ∧
      (c._set_slice_center v).display_rgba_dirty = true) ∧
    (∀ (c : CalculatedDisplayValues) (v : Int),
      (c._set_slice_width v).display_data_dirty = true ∧
      (c._set_slice_width v).display_range_dirty = true ∧
      (c._set_slice_width v).display_rgba_dirty = true) ∧
    (∀ (c : CalculatedDisplayValues) (v : Option Cdt),
      (c._set_complex_display_type v).display_data_dirty = true ∧
      (c._set_complex_display_type v).display_range_dirty = true ∧
      (c._set_complex_display_type v).display_rgba_dirty = true) := by
  refine ⟨?_, ?_, ?_, ?_, ?_, ?_, ?_, ?_⟩ <;> exact fun c v => ⟨rfl, rfl, rfl⟩

/-- C10: the display_limits validator normalizes every stored value: an
empty sequence or a pair of two Nones becomes None, a one-element
sequence (v,) with v present becomes (v, None), a fully-present pair is
stored as (min, max), and whenever both components of the stored value
are present, low ≤ high. -/
theorem C10_display_limits_normalized :
    Display.validate_display_limits (some []) = none ∧
    Display.validate_display_limits (some [none, none]) = none ∧
    (∀ x : Int, Display.validate_display_limits (some [some x]) =
      some (some x, none)) ∧
    (∀ a b : Int, Display.validate_display_limits (some [some a, some b]) =
      some (some (min a b), some (max a b))) ∧
    (∀ (v : Option (List (Option Int))) (lo hi : Int),
      Display.validate_display_limits v = some (some lo, some hi) → lo ≤ hi) := by
  refine ⟨rfl, rfl, fun x => rfl, fun a b => rfl, ?_⟩
  intro v lo hi h
  match v with
  | none => simp [Display.validate_display_limits] at h
  | some [] => simp [Display.validate_display_limits] at h
  | some [none] => simp [Display.validate_display_limits] at h
  | some [some x] => simp [Display.validate_display_limits] at h
  | some (some a :: some b :: rest) =>
    simp [Display.validate_display_limits] at h
    obtain ⟨h1, h2⟩ := h
    omega
  | some (none :: none :: rest) =>
    simp [Display.validate_display_limits] at h
  | some (some a :: none :: rest) => simp [Display.validate_display_limits] at h
  | some (none :: some b :: rest) => simp [Display.validate_display_limits] at h

/-- C10 witness: a reversed pair is stored as (min, max) and the stored
bounds are ordered. -/
theorem C10_witness :
    Display.validate_display_limits (some [some 9, some 2]) =
      some (some 2, some 9) ∧ (2 : Int) ≤ 9 :=
  ⟨by decide, C10_display_limits_normalized.2.2.2.2 (some [some 9, some 2]) 2 9
    (by decide)⟩

/-- C8 counterexample: during reading (restoring from storage) with the
source not yet known, the sequence_index validator does not accept the
incoming value 5 verbatim; it returns 0. -/
theorem C8_counterexample :
    ¬ (Display.validate_sequence_index true none 5 = 5) := by decide

/-- C8 amended: during reading, only the slice_center and slice_width
validators accept the incoming value verbatim (and only while the source
shape is still unknown); the sequence_index and collection_index
validators ignore the incoming value during reading and return the
defaults 0 and (0, 0, 0), re-validation being deferred until the real
shape is known. -/
theorem C8_reading_validators :
    (∀ (dm : Option Src) (v : Int),
      Display.validate_sequence_index true dm v = 0) ∧
    (∀ (dm : Option Src) (v : Int × Int × Int),
      Display.validate_collection_index true dm v = (0, 0, 0)) ∧
    (∀ v w : Int, Display.validate_slice_center_for_width none true v w = v) ∧
    (∀ sc v : Int, Display.validate_slice_width none true sc v = v) := by
  refine ⟨fun dm v => ?_, fun dm v => ?_, fun v w => rfl, fun sc v => rfl⟩
  · cases dm <;> rfl
  · cases dm <;> rfl

theorem nan_inf_collapse_clean (dr : RVal × RVal) :
    (nan_inf_collapse dr).1.isnan = false ∧ (nan_inf_collapse dr).1.isinf = false ∧
    (nan_inf_collapse dr).2.isnan = false ∧ (nan_inf_collapse dr).2.isinf = false := by
  unfold nan_inf_collapse
  split
  · exact ⟨rfl, rfl, rfl, rfl⟩
  · next hguard =>
    simp only [Bool.or_eq_true, not_or, Bool.not_eq_true] at hguard
    exact ⟨hguard.1.1.1, hguard.1.2, hguard.1.1.2, hguard.2⟩

theorem collapse_eq_clean (X : RVal × RVal) (lo hi : RVal)
    (h : nan_inf_collapse X = (lo, hi)) :
    lo.isnan = false ∧ lo.isinf = false ∧ hi.isnan = false ∧ hi.isinf = false := by
  have hc := nan_inf_collapse_clean X
  rw [h] at hc
  exact hc

/-- C4: the computed display range.  With display_limits fully specified
the display range equals display_limits (regardless of data_range); with
only one side given, the missing side independently defaults to the
corresponding data_range bound; otherwise, for complex data with no
explicit complex display mode and a sample present, the low bound is the
sample value at index int(0.05 * length) and the high bound is
data_range's max; otherwise the display range is data_range itself. -/
theorem C4_display_range_selection :
    (∀ (l h : RVal) (dr : Option (RVal × RVal)) (ds : Option (List RVal))
        (x : Option Src) (c : Option Cdt),
      calculate_display_range (some (some l, some h)) dr ds x c =
        .ok (some (l, h))) ∧
    (∀ (l a b : RVal) (ds : Option (List RVal)) (x : Option Src) (c : Option Cdt),
      calculate_display_range (some (some l, none)) (some (a, b)) ds x c =
        .ok (some (l, b))) ∧
    (∀ (h a b : RVal) (ds : Option (List RVal)) (x : Option Src) (c : Option Cdt),
      calculate_display_range (some (none, some h)) (some (a, b)) ds x c =
        .ok (some (a, h))) ∧
    (∀ (ds : List RVal) (lo a b : RVal) (s : Src), s.kind = DKind.cplx →
      pyIndex ds (ds.length * 5 / 100) = some lo →
      calculate_display_range none (some (a, b)) (some ds) (some s) none =
        .ok (some (lo, b))) ∧
    (∀ (dr : Option (RVal × RVal)) (ds : Option (List RVal)) (x : Option Src)
        (c : Option Cdt),
      (∀ s : Src, x = some s → s.kind ≠ DKind.cplx ∨ c ≠ none) →
      calculate_display_range none dr ds x c = .ok dr) := by
  refine ⟨fun l h dr ds x c => by cases dr <;> rfl,
          fun l a b ds x c => rfl, fun h a b ds x c => rfl, ?_, ?_⟩
  · intro ds lo a b s hkind hidx
    simp [calculate_display_range, hkind, hidx]
  · intro dr ds x c hx
    match x with
    | none => rfl
    | some s =>
      have hs := hx s rfl
      have hcond : ¬ (s.kind = DKind.cplx ∧ c = none) := by
        rcases hs with h1 | h2
        · exact fun hc => h1 hc.1
        · exact fun hc => h2 hc.2
      simp [calculate_display_range, hcond]

/-- C4 witness: display_limits (0, 50) gives display range (0, 50)
regardless of the data range, and the complex branch returns the sampled
5th-percentile low bound with data_range's max. -/
theorem C4_witness :
    calculate_display_range (some (some (.fin 0), some (.fin 50)))
        (some (.fin (-7), .fin 999)) none none none =
      .ok (some (.fin 0, .fin 50)) ∧
    calculate_display_range none (some (.fin 1, .fin 9))
        (some [.fin 0, .fin 1, .fin 2])
        (some ⟨[4, 4], DKind.cplx, false, 0, 1, 0⟩) none =
      .ok (some (.fin 0, .fin 9)) :=
  ⟨C4_display_range_selection.1 (.fin 0) (.fin 50) (some (.fin (-7), .fin 999))
      none none none,
   C4_display_range_selection.2.2.2.1 [.fin 0, .fin 1, .fin 2] (.fin 0)
      (.fin 1) (.fin 9) ⟨[4, 4], DKind.cplx, false, 0, 1, 0⟩ rfl rfl⟩

/-- C5: the computed data_range.  With display data absent or empty the
result is absent; with an RGB-typed source it is (0, 255); otherwise it
is (min, max) of the display data's values, with the whole pair replaced
by (0.0, 0.0) whenever either bound is NaN or Inf — so no returned
data_range ever has a NaN or Inf bound. -/
theorem C5_data_range :
    (∀ dm : Option Src,
      CalculatedDisplayValues.calculate_data_range none dm = none) ∧
    (∀ (ts : Nat) (dm : Option Src),
      CalculatedDisplayValues.calculate_data_range (some ⟨[], ts⟩) dm = none) ∧
    (∀ (dd : List RVal) (ts : Nat) (s : Src), dd ≠ [] → s.kind = DKind.rgb →
      CalculatedDisplayValues.calculate_data_range (some ⟨dd, ts⟩) (some s) =
        some (.fin 0, .fin 255)) ∧
    (∀ (dd : List RVal) (ts : Nat) (s : Src), dd ≠ [] → s.kind ≠ DKind.rgb →
      CalculatedDisplayValues.calculate_data_range (some ⟨dd, ts⟩) (some s) =
        some (nan_inf_collapse (amin dd, amax dd))) ∧
    (∀ (ddm : Option DData) (dm : Option Src) (lo hi : RVal),
      CalculatedDisplayValues.calculate_data_range ddm dm = some (lo, hi) →
      lo.isnan = false ∧ lo.isinf = false ∧ hi.isnan = false ∧
        hi.isinf = false) := by
  refine ⟨fun dm => by cases dm <;> rfl, fun ts dm => by cases dm <;> rfl,
          ?_, ?_, ?_⟩
  · intro dd ts s hne hkind
    have hlen : dd.length ≠ 0 := by simpa using hne
    simp [CalculatedDisplayValues.calculate_data_range, hkind, hlen,
          nan_inf_collapse, RVal.isnan, RVal.isinf]
  · intro dd ts s hne hkind
    have hlen : dd.length ≠ 0 := by simpa using hne
    cases hk : s.kind with
    | rgb => exact absurd hk hkind
    | cplx => simp [CalculatedDisplayValues.calculate_data_range, hk, hlen]
    | real_type => simp [CalculatedDisplayValues.calculate_data_range, hk, hlen]
  · intro ddm dm lo hi h
    match ddm, dm with
    | none, none => simp [CalculatedDisplayValues.calculate_data_range] at h
    | none, some s => simp [CalculatedDisplayValues.calculate_data_range] at h
    | some d, none => simp [CalculatedDisplayValues.calculate_data_range] at h
    | some d, some s =>
      simp only [CalculatedDisplayValues.calculate_data_range] at h
      by_cases hlen : d.data.length ≠ 0
      · rw [if_pos hlen] at h
        by_cases hk : s.kind = DKind.rgb
        · rw [if_pos hk] at h
          simp only [Option.some.injEq] at h
          exact collapse_eq_clean _ lo hi h
        · rw [if_neg hk] at h
          by_cases hc : s.kind = DKind.cplx
          · rw [if_pos hc] at h
            simp only [Option.some.injEq] at h
            exact collapse_eq_clean _ lo hi h
          · rw [if_neg hc] at h
            simp only [Option.some.injEq] at h
            exact collapse_eq_clean _ lo hi h
      · rw [if_neg hlen] at h
        simp at h

/-- C5 witness: a real-typed display data containing a NaN yields the
collapsed range (0, 0); an RGB-typed source yields (0, 255); the
collapsed bounds are neither NaN nor Inf. -/
theorem C5_witness :
    CalculatedDisplayValues.calculate_data_range (some ⟨[.fin 3, .nan], 0⟩)
        (some ⟨[2], DKind.real_type, false, 0, 1, 0⟩) =
      some (.fin 0, .fin 0) ∧
    CalculatedDisplayValues.calculate_data_range (some ⟨[.fin 3, .fin 7], 0⟩)
        (some ⟨[2], DKind.rgb, false, 0, 1, 0⟩) =
      some (.fin 0, .fin 255) ∧
    (RVal.fin 0).isnan = false ∧ (RVal.fin 0).isinf = false := by
  refine ⟨?_, ?_, ?_, ?_⟩
  · have h := C5_data_range.2.2.2.1 [.fin 3, .nan] 0
      ⟨[2], DKind.real_type, false, 0, 1, 0⟩ (by decide) (by decide)
    simpa using h
  · exact C5_data_range.2.2.1 [.fin 3, .fin 7] 0
      ⟨[2], DKind.rgb, false, 0, 1, 0⟩ (by decide) rfl
  · exact (C5_data_range.2.2.2.2 (some ⟨[.fin 3, .nan], 0⟩)
      (some ⟨[2], DKind.real_type, false, 0, 1, 0⟩) (.fin 0) (.fin 0)
      (by decide)).1
  · exact (C5_data_range.2.2.2.2 (some ⟨[.fin 3, .nan], 0⟩)
      (some ⟨[2], DKind.real_type, false, 0, 1, 0⟩) (.fin 0) (.fin 0)
      (by decide)).2.1

/-- C7: outside restoration, slice_center never stores an out-of-range
value.  Part 1: for a present source of trailing dimension d and a
validated slice width 1 ≤ w ≤ d, the validator stores the clamp of the
incoming value to the valid interval [mn, mx] ⊆ [0, d): an in-range
value is kept, an out-of-range value becomes the nearest valid bound,
and a value outside [0, d) is never stored as-is.  Part 2: after
update_data replaces the dataset with one of a different shape and
trailing dimension d ≥ 1, the re-clamped slice_center lies in [0, d). -/
theorem C7_slice_center_clamping :
    (∀ (s : Src) (d w v : Int), s.shape.getLast? = some d → 1 ≤ w → w ≤ d →
      (0 ≤ Display.validate_slice_center_for_width (some s) false v w ∧
        Display.validate_slice_center_for_width (some s) false v w < d) ∧
      (max (int_trunc_half w) 0 ≤ v →
        v ≤ min (int_trunc_half (2 * d - w)) (d - 1) →
        Display.validate_slice_center_for_width (some s) false v w = v) ∧
      (v < max (int_trunc_half w) 0 →
        Display.validate_slice_center_for_width (some s) false v w =
          max (int_trunc_half w) 0) ∧
      (min (int_trunc_half (2 * d - w)) (d - 1) < v →
        Display.validate_slice_center_for_width (some s) false v w =
          min (int_trunc_half (2 * d - w)) (d - 1)) ∧
      ((v < 0 ∨ d ≤ v) →
        Display.validate_slice_center_for_width (some s) false v w ≠ v)) ∧
    (∀ (old_dm : Option Src) (s : Src) (d sc : Int),
      s.shape.getLast? = some d → 1 ≤ d →
      old_dm.map Src.shape ≠ some s.shape →
      0 ≤ Display.update_data_slice_center old_dm (some s) sc ∧
        Display.update_data_slice_center old_dm (some s) sc < d) := by
  constructor
  · intro s d w v hshape hw1 hwd
    have hh1 : int_trunc_half w = w / 2 := by
      unfold int_trunc_half
      rw [if_pos (by omega : (0 : Int) ≤ w)]
    have hh2 : int_trunc_half (2 * d - w) = (2 * d - w) / 2 := by
      unfold int_trunc_half
      rw [if_pos (by omega : (0 : Int) ≤ 2 * d - w)]
    simp only [Display.validate_slice_center_for_width, hshape, Option.getD_some,
               hh1, hh2]
    refine ⟨⟨?_, ?_⟩, ?_, ?_, ?_, ?_⟩ <;> omega
  · intro old_dm s d sc hshape hd hdiff
    have hval : 0 ≤ Display.validate_slice_center_for_width (some s) false sc 1 ∧
        Display.validate_slice_center_for_width (some s) false sc 1 < d := by
      simp only [Display.validate_slice_center_for_width, hshape, Option.getD_some]
      have hh1 : int_trunc_half 1 = 0 := rfl
      have hh2 : int_trunc_half (2 * d - 1) = (2 * d - 1) / 2 := by
        unfold int_trunc_half
        rw [if_pos (by omega : (0 : Int) ≤ 2 * d - 1)]
      rw [hh1, hh2]
      omega
    have hdiff2 : Option.map Src.shape old_dm ≠ Option.map Src.shape (some s) := by
      simpa using hdiff
    have hgoal : Display.update_data_slice_center old_dm (some s) sc =
        (if Display.validate_slice_center_for_width (some s) false sc 1 ≠ sc
         then Display.validate_slice_center_for_width (some s) false sc 1
         else sc) := by
      unfold Display.update_data_slice_center Display.validate_slice_indexes_center
      rw [if_pos hdiff2]
    rw [hgoal]
    split
    · exact hval
    · next heq =>
      have hsc : Display.validate_slice_center_for_width (some s) false sc 1 = sc := by
        by_contra hne
        exact heq hne
      rw [← hsc]
      exact hval

/-- C7 witness: with a source of depth 10 and width 1, the out-of-range
value 99 is stored as 9 (the nearest valid value, not 99); replacing a
depth-10 source by a depth-3 source re-clamps the stored center 9 into
[0, 3). -/
theorem C7_witness :
    (0 ≤ Display.validate_slice_center_for_width
        (some ⟨[10], DKind.real_type, false, 0, 1, 0⟩) false 99 1 ∧
      Display.validate_slice_center_for_width
        (some ⟨[10], DKind.real_type, false, 0, 1, 0⟩) false 99 1 < 10) ∧
    Display.validate_slice_center_for_width
        (some ⟨[10], DKind.real_type, false, 0, 1, 0⟩) false 99 1 ≠ 99 ∧
    (0 ≤ Display.update_data_slice_center
        (some ⟨[10], DKind.real_type, false, 0, 1, 0⟩)
        (some ⟨[3], DKind.real_type, false, 0, 1, 0⟩) 9 ∧
      Display.update_data_slice_center
        (some ⟨[10], DKind.real_type, false, 0, 1, 0⟩)
        (some ⟨[3], DKind.real_type, false, 0, 1, 0⟩) 9 < 3) := by
  have h1 := (C7_slice_center_clamping.1 ⟨[10], DKind.real_type, false, 0, 1, 0⟩
    10 1 99 rfl (by decide) (by decide))
  have h2 := C7_slice_center_clamping.2
    (some ⟨[10], DKind.real_type, false, 0, 1, 0⟩)
    ⟨[3], DKind.real_type, false, 0, 1, 0⟩ 3 9 rfl (by decide) (by decide)
  exact ⟨h1.1, h1.2.2.2.2 (Or.inr (by decide)), h2⟩

/-- C1: while a worker is active, every further invalidation (parameter
setter or new data) spawns no second worker and only sets the pending
flag; when the worker finishes with the pending flag set, exactly one
new worker is launched, and it recomputes against the then-current input
state — N rapid updates during a run yield one extra recomputation
reflecting only the final value.  (At most one worker is active at a
time: the update sequence spawns zero workers and the epilogue hands the
single thread slot to exactly one successor.) -/
theorem C1_coalescing {α : Type} (s : Display.SchedulerState α) (vs : List α)
    (hthread : s.calculated_display_values_thread = true)
    (hok : s.calculated_display_values_thread_ok = true)
    (hne : vs ≠ []) :
    (Display.apply_updates vs s).2 = 0 ∧
    (Display.apply_updates vs s).1.calculated_display_values_pending = true ∧
    (Display.finish_worker (Display.apply_updates vs s).1).2 = 1 ∧
    (Display.finish_worker (Display.apply_updates vs s).1).1.worker_input =
      some (vs.getLast hne) ∧
    (Display.finish_worker
      (Display.apply_updates vs s).1).1.calculated_display_values_thread =
      true := by
  rw [apply_updates_active vs s hthread hne]
  simp [Display.finish_worker, hok]

/-- C1 witness: three rapid updates during a run spawn nothing, set
pending, and the epilogue relaunches exactly one worker against the
final value 3. -/
theorem C1_witness :
    (Display.apply_updates [1, 2, 3]
      (⟨true, false, true, 1, 0, none⟩ : Display.SchedulerState Nat)).2 = 0 ∧
    (Display.apply_updates [1, 2, 3]
      (⟨true, false, true, 1, 0, none⟩ :
        Display.SchedulerState Nat)).1.calculated_display_values_pending =
      true ∧
    (Display.finish_worker (Display.apply_updates [1, 2, 3]
      (⟨true, false, true, 1, 0, none⟩ :
        Display.SchedulerState Nat)).1).2 = 1 ∧
    (Display.finish_worker (Display.apply_updates [1, 2, 3]
      (⟨true, false, true, 1, 0, none⟩ :
        Display.SchedulerState Nat)).1).1.worker_input = some 3 ∧
    (Display.finish_worker (Display.apply_updates [1, 2, 3]
      (⟨true, false, true, 1, 0, none⟩ :
        Display.SchedulerState Nat)).1).1.calculated_display_values_thread =
      true := by
  have h := C1_coalescing (⟨true, false, true, 1, 0, none⟩ :
    Display.SchedulerState Nat) [1, 2, 3] rfl rfl (by decide)
  exact ⟨h.1, h.2.1, h.2.2.1, h.2.2.2.1, h.2.2.2.2⟩

/-- C3: close clears the scheduler-enabled (thread-ok) flag and joins
the active worker (the join is modelled by running the worker epilogue
inside close), so after close returns the thread slot is empty; and a
worker epilogue run in the closed state spawns no new worker, whatever
the pending flag — so no further recomputation worker is ever spawned
from the pending mechanism after close. -/
theorem C3_close_scheduler {α : Type} (s : Display.SchedulerState α) :
    (Display.close_scheduler s).calculated_display_values_thread_ok = false ∧
    (Display.close_scheduler s).calculated_display_values_thread = false ∧
    (∀ p : Bool,
      (Display.finish_worker { Display.close_scheduler s with
        calculated_display_values_pending := p }).2 = 0 ∧
      (Display.finish_worker { Display.close_scheduler s with
        calculated_display_values_pending := p
          }).1.calculated_display_values_thread = false) := by
  unfold Display.close_scheduler
  by_cases h : s.calculated_display_values_thread = true
  · simp [h, Display.finish_worker]
  · simp only [Bool.not_eq_true] at h
    simp [h, Display.finish_worker]

theorem finish_worker_input {α : Type} (s : Display.SchedulerState α) :
    (Display.finish_worker s).1.input = s.input := by
  unfold Display.finish_worker
  cases hp : s.calculated_display_values_pending <;>
    cases hq : s.calculated_display_values_thread_ok <;> simp [hp, hq]

/-- C2: a worker whose try block raises — the test exception, or a
pipeline exception inside copy_and_calculate — fires no listener
notification, leaves the parent's stored DisplayValues unchanged, and
does not leave the scheduler stuck: the thread slot is cleared, or
exactly one relaunch occurs when the pending flag was set (with the
scheduler still enabled). -/
theorem C2_worker_exception (ext : Externals) (rand : List RVal → List RVal)
    (s : Display.SchedulerState CalculatedDisplayValues) (e : Unit)
    (hERR : (CalculatedDisplayValues.copy_and_calculate ext rand s.input).2 =
      .error e) :
    ((Display.calculate_display_values_thread_body ext rand true s).2.1 = 0 ∧
      (Display.calculate_display_values_thread_body ext rand true
        s).1.input.values = s.input.values) ∧
    ((Display.calculate_display_values_thread_body ext rand false s).2.1 = 0 ∧
      (Display.calculate_display_values_thread_body ext rand false
        s).1.input.values = s.input.values) ∧
    (∀ texc : Bool,
      (s.calculated_display_values_pending = true ∧
          s.calculated_display_values_thread_ok = true →
        (Display.calculate_display_values_thread_body ext rand texc s).2.2 = 1 ∧
        (Display.calculate_display_values_thread_body ext rand texc
          s).1.calculated_display_values_thread = true) ∧
      (¬ (s.calculated_display_values_pending = true ∧
            s.calculated_display_values_thread_ok = true) →
        (Display.calculate_display_values_thread_body ext rand texc s).2.2 = 0 ∧
        (Display.calculate_display_values_thread_body ext rand texc
          s).1.calculated_display_values_thread = false))  := by
  cases hcc : CalculatedDisplayValues.copy_and_calculate ext rand s.input with
  | mk parent res =>
  cases res with
  | ok v =>
    rw [hcc] at hERR
    simp at hERR
  | error e2 =>
    have hv : parent.values = s.input.values := by
      have h2 := copy_and_calculate_error_values ext rand s.input e hERR
      rw [hcc] at h2
      exact h2
    have hb : ∀ texc : Bool,
        ¬ (s.calculated_display_values_pending = true ∧
            s.calculated_display_values_thread_ok = true) →
        (s.calculated_display_values_pending &&
          s.calculated_display_values_thread_ok) = false := by
      intro texc hn
      cases hp : s.calculated_display_values_pending <;>
        cases hq : s.calculated_display_values_thread_ok <;> simp_all
    refine ⟨⟨?_, ?_⟩, ⟨?_, ?_⟩, ?_⟩
    · rfl
    · simp [Display.calculate_display_values_thread_body, finish_worker_input]
    · simp [Display.calculate_display_values_thread_body, hcc]
    · simp [Display.calculate_display_values_thread_body, hcc,
            finish_worker_input, hv]
    · intro texc
      constructor
      · intro hpo
        obtain ⟨hp, hok⟩ := hpo
        cases texc with
        | true =>
          constructor <;>
            simp [Display.calculate_display_values_thread_body,
                  Display.finish_worker, hp, hok]
        | false =>
          constructor <;>
            simp [Display.calculate_display_values_thread_body,
                  Display.finish_worker, hp, hok, hcc]
      · intro hn
        have hb2 := hb texc hn
        cases texc with
        | true =>
          constructor <;>
            simp [Display.calculate_display_values_thread_body,
                  Display.finish_worker, hb2]
        | false =>
          constructor <;>
            simp [Display.calculate_display_values_thread_body,
                  Display.finish_worker, hb2, hcc]

/-- C2 witness: a worker hitting a pipeline exception (complex data with
a data sample but no data range yet, so calculate_display_range raises)
fires no notification, preserves the stored values, and relaunches
exactly once because the pending flag was set. -/
theorem C2_witness :
    (Display.calculate_display_values_thread_body
      ⟨fun _ _ _ _ _ _ => none, fun _ _ _ => []⟩ id false
      ⟨true, true, true, 1,
        { display_range_dirty := true,
          data_and_metadata := some ⟨[4], DKind.cplx, false, 0, 1, 0⟩,
          data_sample := some [.fin 0] }, none⟩).2.1 = 0 ∧
    (Display.calculate_display_values_thread_body
      ⟨fun _ _ _ _ _ _ => none, fun _ _ _ => []⟩ id false
      ⟨true, true, true, 1,
        { display_range_dirty := true,
          data_and_metadata := some ⟨[4], DKind.cplx, false, 0, 1, 0⟩,
          data_sample := some [.fin 0] }, none⟩).1.input.values =
      CalculatedDisplayValues.values
        { display_range_dirty := true,
          data_and_metadata := some ⟨[4], DKind.cplx, false, 0, 1, 0⟩,
          data_sample := some [.fin 0] } ∧
    (Display.calculate_display_values_thread_body
      ⟨fun _ _ _ _ _ _ => none, fun _ _ _ => []⟩ id false
      ⟨true, true, true, 1,
        { display_range_dirty := true,
          data_and_metadata := some ⟨[4], DKind.cplx, false, 0, 1, 0⟩,
          data_sample := some [.fin 0] }, none⟩).2.2 = 1 := by
  have h := C2_worker_exception ⟨fun _ _ _ _ _ _ => none, fun _ _ _ => []⟩ id
    ⟨true, true, true, 1,
      { display_range_dirty := true,
        data_and_metadata := some ⟨[4], DKind.cplx, false, 0, 1, 0⟩,
        data_sample := some [.fin 0] }, none⟩ () rfl
  exact ⟨h.2.1.1, h.2.1.2, ((h.2.2 false).1 ⟨rfl, rfl⟩).1⟩

/-- C9: calling get_calculated_display_values(immediate=True) twice with
no intervening mutation yields bit-identical DisplayValues: the first
forced computation clears all dirty flags, so the second forced call —
even with a different randomness oracle for the subsampled data_sample —
recomputes no stage and returns exactly the same snapshot and state. -/
theorem C9_immediate_idempotent (ext : Externals)
    (r1 r2 : List RVal → List RVal) (c c1 : CalculatedDisplayValues)
    (v1 w1 : DisplayValues)
    (h : Display.get_calculated_display_values ext r1 c = ((c1, .ok v1), w1)) :
    Display.get_calculated_display_values ext r2 c1 = ((c1, .ok v1), v1) ∧
    w1 = v1 ∧
    c1.display_data_dirty = false ∧ c1.display_range_dirty = false ∧
    c1.display_rgba_dirty = false := by
  have hfst : CalculatedDisplayValues.copy_and_calculate ext r1 c =
      (c1, Except.ok v1) := congrArg Prod.fst h
  have hsnd : CalculatedDisplayValues.values
      (CalculatedDisplayValues.copy_and_calculate ext r1 c).1 = w1 :=
    congrArg Prod.snd h
  rw [hfst] at hsnd
  have hcc := hfst
  unfold CalculatedDisplayValues.copy_and_calculate at hcc
  cases hcalc : CalculatedDisplayValues.calculate ext r1 c with
  | error e2 =>
    rw [hcalc] at hcc
    exact absurd (congrArg Prod.snd hcc) (by simp)
  | ok c2 =>
    rw [hcalc] at hcc
    have hc1 : (CalculatedDisplayValues.clear_dirty c).update_values
        (CalculatedDisplayValues.values c2) = c1 := congrArg Prod.fst hcc
    have hv1 : CalculatedDisplayValues.values c2 = v1 := by
      have h3 := congrArg Prod.snd hcc
      simpa using h3
    have hflag1 : c1.display_data_dirty = false := by rw [← hc1]; rfl
    have hflag2 : c1.display_range_dirty = false := by rw [← hc1]; rfl
    have hflag3 : c1.display_rgba_dirty = false := by rw [← hc1]; rfl
    have hvals : CalculatedDisplayValues.values c1 = v1 := by
      rw [← hc1, values_update_values]
      exact hv1
    have hsecond : CalculatedDisplayValues.copy_and_calculate ext r2 c1 =
        (c1, .ok v1) := by
      unfold CalculatedDisplayValues.copy_and_calculate
      rw [calculate_clean ext r2 c1 hflag1 hflag2 hflag3,
          clear_dirty_of_clean c1 hflag1 hflag2 hflag3]
      show (c1.update_values c1.values, Except.ok c1.values) = (c1, Except.ok v1)
      rw [update_values_self, hvals]
    refine ⟨?_, ?_, hflag1, hflag2, hflag3⟩
    · show (CalculatedDisplayValues.copy_and_calculate ext r2 c1,
        CalculatedDisplayValues.values
          (CalculatedDisplayValues.copy_and_calculate ext r2 c1).1) =
        ((c1, Except.ok v1), v1)
      rw [hsecond]
      simp [hvals]
    · rw [← hsnd, hvals]

/-- C9 witness: a fully dirty but dataless state computes once to the
empty snapshot; the second forced call with a different randomness
oracle returns the identical state and snapshot. -/
theorem C9_witness :
    Display.get_calculated_display_values
        ⟨fun _ _ _ _ _ _ => none, fun _ _ _ => []⟩ (fun _ => [.nan])
        ({} : CalculatedDisplayValues) =
      ((({} : CalculatedDisplayValues),
        Except.ok ⟨none, none, none, none, none, none⟩),
       ⟨none, none, none, none, none, none⟩) ∧
    ⟨none, none, none, none, none, none⟩ =
      (⟨none, none, none, none, none, none⟩ : DisplayValues) := by
  have h := C9_immediate_idempotent
    ⟨fun _ _ _ _ _ _ => none, fun _ _ _ => []⟩ id (fun _ => [.nan])
    { display_data_dirty := true, display_range_dirty := true,
      display_rgba_dirty := true }
    ({} : CalculatedDisplayValues)
    ⟨none, none, none, none, none, none⟩ ⟨none, none, none, none, none, none⟩
    rfl
  exact ⟨h.1, h.2.1⟩
